import Mathlib

/-!
# Verification of the discogs-tracker core against its specification

Shallow embedding of the Rust sources of `Martz/discogs-tracker`
(`src/discogs.rs`, `src/database.rs`, `src/types.rs`, `src/cli.rs`)
as executable Lean definitions, together with theorems settling the
frozen claims about the natural-language specification.

Modelling conventions:
* Rust `u32` fields are modelled as `Nat`; where the 32-bit width is
  behaviourally relevant (the pagination comparison `page >=
  response.pagination.pages` between two `u32` values) the decoded
  value is taken modulo `U32 = 2 ^ 32`.
* Rust `f64` price values are modelled as exact rationals `ℚ`; the
  code only carries prices around (no float arithmetic is performed by
  the functions under verification except the spec-modelled trend
  percentage, for which `ℚ` gives the exact field formula).
* HTTP access (`make_request`) is modelled by server oracles: one
  function per deserialization target, mapping a structured request to
  `Except String <response>`.  The `Err` case covers transport, auth,
  non-2xx-status and JSON-decode failures, exactly the failure channel
  of `make_request`.
* URL formatting: each distinct format string of `discogs.rs` embeds
  its arguments injectively, so a URL is modelled as a structured
  `DiscogsRequest` value carrying the same data.
* `tokio::time::sleep` (the rate-limit delay) has no observable effect
  on the values computed and is modelled as a no-op.
-/

namespace DiscogsTracker

/-- `2 ^ 32`, the number of values of the Rust `u32` type. -/
def U32 : Nat := 2 ^ 32

/-! ## Data model (src/types.rs) -/

/-- `types.rs::DiscogsArtist`. -/
structure DiscogsArtist where
  name : String
  id : Nat
  resource_url : String
deriving DecidableEq, Repr

/-- `types.rs::DiscogsFormat`. -/
structure DiscogsFormat where
  name : String
  qty : String
  descriptions : Option (List String)
deriving DecidableEq, Repr

/-- `types.rs::DiscogsLabel`. -/
structure DiscogsLabel where
  name : String
  catno : String
  entity_type : String
  entity_type_name : String
  id : Nat
  resource_url : String
deriving DecidableEq, Repr

/-- `types.rs::DiscogsBasicInformation`. -/
structure DiscogsBasicInformation where
  id : Nat
  title : String
  year : Nat
  resource_url : String
  thumb : String
  cover_image : String
  formats : List DiscogsFormat
  artists : List DiscogsArtist
  labels : List DiscogsLabel
  genres : List String
  styles : List String
deriving DecidableEq, Repr

/-- `types.rs::DiscogsCollectionItem`. -/
structure DiscogsCollectionItem where
  id : Nat
  instance_id : Nat
  folder_id : Nat
  rating : Nat
  basic_information : DiscogsBasicInformation
  date_added : String
deriving DecidableEq, Repr

/-- `types.rs::DiscogsPaginationUrls`. -/
structure DiscogsPaginationUrls where
  last : Option String
  next : Option String
  prev : Option String
  first : Option String
deriving DecidableEq, Repr

/-- `types.rs::DiscogsPagination`.  All numeric fields are `u32` in the
source; a successfully decoded value therefore satisfies `pages < U32`,
which the loop embeddings realise by reducing `pages` modulo `U32`. -/
structure DiscogsPagination where
  page : Nat
  pages : Nat
  per_page : Nat
  items : Nat
  urls : DiscogsPaginationUrls
deriving DecidableEq, Repr

/-- `types.rs::DiscogsCollectionResponse`. -/
structure DiscogsCollectionResponse where
  pagination : DiscogsPagination
  releases : List DiscogsCollectionItem
deriving DecidableEq, Repr

/-- `types.rs::DiscogsWantlistItem`. -/
structure DiscogsWantlistItem where
  id : Nat
  rating : Nat
  notes : String
  basic_information : DiscogsBasicInformation
  date_added : String
deriving DecidableEq, Repr

/-- `types.rs::DiscogsWantlistResponse`. -/
structure DiscogsWantlistResponse where
  pagination : DiscogsPagination
  wants : List DiscogsWantlistItem
deriving DecidableEq, Repr

/-- `types.rs::DiscogsPrice` (`value` is `f64`, modelled as `ℚ`). -/
structure DiscogsPrice where
  value : ℚ
  currency : String
deriving DecidableEq, Repr

/-- `types.rs::DiscogsMarketplaceStats`. -/
structure DiscogsMarketplaceStats where
  lowest_price : Option DiscogsPrice
  num_for_sale : Nat
  blocked_from_sale : Bool
deriving DecidableEq, Repr

/-- `types.rs::DiscogsCommunity`. -/
structure DiscogsCommunity where
  want : Nat
  have_count : Nat
deriving DecidableEq, Repr

/-- `types.rs::DiscogsReleaseInfo`. -/
structure DiscogsReleaseInfo where
  community : Option DiscogsCommunity
deriving DecidableEq, Repr

/-- `types.rs::ReleaseInfo`. -/
structure ReleaseInfo where
  id : Nat
  title : String
  artist : String
  year : Nat
  format : String
  thumb_url : String
  added_date : String
deriving DecidableEq, Repr

/-- `types.rs::MarketplacePrice`. -/
structure MarketplacePrice where
  price : ℚ
  currency : String
  condition : String
  listing_count : Nat
  wants_count : Nat
deriving DecidableEq, Repr

/-! ## Requests (the URL format strings of src/discogs.rs)

Each constructor corresponds to one `format!` URL pattern of
`discogs.rs`; the pattern embeds its arguments injectively, so the
structured value carries exactly the information of the URL string. -/

/-- A request URL of `discogs.rs`, one constructor per format string. -/
inductive DiscogsRequest where
  /-- `/users/{username}/collection/folders/{folder_id}/releases?page={page}&per_page=100` -/
  | collectionReleases (username : String) (folderId : Nat) (page : Nat)
  /-- `/users/{username}/wants?page={page}&per_page=100` -/
  | wants (username : String) (page : Nat)
  /-- `/marketplace/stats/{release_id}` -/
  | marketplaceStats (releaseId : Nat)
  /-- `/releases/{release_id}` -/
  | releaseInfo (releaseId : Nat)
  /-- `/users/{username}/collection/folders` -/
  | folders (username : String)
deriving DecidableEq, Repr

/-! ## Marketplace lookup (src/discogs.rs lines 145-177) -/

/-- `discogs.rs::get_wants_count` (lines 170-177): fetch
`/releases/{id}` and extract `community.want`, defaulting to `0` when
the `community` field is absent; a request failure propagates. -/
def get_wants_count (srvRelease : DiscogsRequest → Except String DiscogsReleaseInfo)
    (release_id : Nat) : Except String Nat :=
  match srvRelease (.releaseInfo release_id) with
  | .error e => .error e
  | .ok release_data => .ok ((release_data.community.map (fun c => c.want)).getD 0)

/-- `discogs.rs::get_marketplace_stats` (lines 145-168).  The source
matches the stats request result and on `Err(_)` returns `Ok(None)`
(the literal comment there is `// Handle errors gracefully`); the
lowest price is used only when `num_for_sale > 0`; the wants count is
`get_wants_count(...).unwrap_or(0)`. -/
def get_marketplace_stats
    (srvStats : DiscogsRequest → Except String DiscogsMarketplaceStats)
    (srvRelease : DiscogsRequest → Except String DiscogsReleaseInfo)
    (release_id : Nat) : Except String (Option MarketplacePrice) :=
  match srvStats (.marketplaceStats release_id) with
  | .error _ => .ok none
  | .ok stats =>
    match stats.lowest_price with
    | some price =>
      if 0 < stats.num_for_sale then
        let wants_count := match get_wants_count srvRelease release_id with
          | .ok n => n
          | .error _ => 0
        .ok (some { price := price.value, currency := price.currency,
                    condition := "Various",
                    listing_count := stats.num_for_sale,
                    wants_count := wants_count })
      else .ok none
    | none => .ok none

/-! ## Paginated fetches (src/discogs.rs lines 67-143)

Each Rust loop starts at `page = 1`, requests the page, appends the
returned items, stops when `page >= response.pagination.pages` (a `u32`
comparison, hence the `% U32` on the decoded field), otherwise sleeps
1s (no-op here) and increments `page`.  The embeddings additionally
return the list of requested pages (the request trace), which
the source determines but does not return.  A transport/decode error
aborts the whole fetch, discarding the accumulated items, exactly as
`?` does in the source.  `page` never overflows `u32` in the source:
it is incremented only while `page < pages` for a decoded `u32`
`pages`, so `page + 1 <= pages <= U32 - 1`. -/

/-- `discogs.rs::get_collection` (lines 67-91), loop body from `page`.
Returns (requested pages, final result). -/
def get_collection_go (srv : DiscogsRequest → Except String DiscogsCollectionResponse)
    (username : String) (page : Nat) :
    List Nat × Except String (List DiscogsCollectionItem) :=
  match srv (.collectionReleases username 0 page) with
  | .error e => ([page], .error e)
  | .ok response =>
    if response.pagination.pages % U32 ≤ page then
      ([page], .ok response.releases)
    else
      (page :: (get_collection_go srv username (page + 1)).1,
       (get_collection_go srv username (page + 1)).2.map
         (fun items => response.releases ++ items))
termination_by U32 - page
decreasing_by
  all_goals
    have hm : response.pagination.pages % U32 < U32 :=
      Nat.mod_lt _ (by norm_num [U32])
    omega

/-- `discogs.rs::get_collection`: the loop entered at page 1. -/
def get_collection (srv : DiscogsRequest → Except String DiscogsCollectionResponse)
    (username : String) :
    List Nat × Except String (List DiscogsCollectionItem) :=
  get_collection_go srv username 1

/-- `discogs.rs::get_collection_by_folder` (lines 93-117), loop body
from `page`. -/
def get_collection_by_folder_go
    (srv : DiscogsRequest → Except String DiscogsCollectionResponse)
    (username : String) (folder_id : Nat) (page : Nat) :
    List Nat × Except String (List DiscogsCollectionItem) :=
  match srv (.collectionReleases username folder_id page) with
  | .error e => ([page], .error e)
  | .ok response =>
    if response.pagination.pages % U32 ≤ page then
      ([page], .ok response.releases)
    else
      (page :: (get_collection_by_folder_go srv username folder_id (page + 1)).1,
       (get_collection_by_folder_go srv username folder_id (page + 1)).2.map
         (fun items => response.releases ++ items))
termination_by U32 - page
decreasing_by
  all_goals
    have hm : response.pagination.pages % U32 < U32 :=
      Nat.mod_lt _ (by norm_num [U32])
    omega

/-- `discogs.rs::get_collection_by_folder`: the loop entered at page 1. -/
def get_collection_by_folder
    (srv : DiscogsRequest → Except String DiscogsCollectionResponse)
    (username : String) (folder_id : Nat) :
    List Nat × Except String (List DiscogsCollectionItem) :=
  get_collection_by_folder_go srv username folder_id 1

/-- `discogs.rs::get_wantlist` (lines 119-143), loop body from `page`. -/
def get_wantlist_go (srv : DiscogsRequest → Except String DiscogsWantlistResponse)
    (username : String) (page : Nat) :
    List Nat × Except String (List DiscogsWantlistItem) :=
  match srv (.wants username page) with
  | .error e => ([page], .error e)
  | .ok response =>
    if response.pagination.pages % U32 ≤ page then
      ([page], .ok response.wants)
    else
      (page :: (get_wantlist_go srv username (page + 1)).1,
       (get_wantlist_go srv username (page + 1)).2.map
         (fun items => response.wants ++ items))
termination_by U32 - page
decreasing_by
  all_goals
    have hm : response.pagination.pages % U32 < U32 :=
      Nat.mod_lt _ (by norm_num [U32])
    omega

/-- `discogs.rs::get_wantlist`: the loop entered at page 1. -/
def get_wantlist (srv : DiscogsRequest → Except String DiscogsWantlistResponse)
    (username : String) :
    List Nat × Except String (List DiscogsWantlistItem) :=
  get_wantlist_go srv username 1

/-! ## Time values (chrono, as used by src/database.rs)

`database.rs` stores a timestamp by rendering a `DateTime<Utc>` with
the chrono format `"%Y-%m-%d %H:%M:%S"` and reads it back with
`DateTime::parse_from_str` on the same format, falling back to
`Utc::now()` when parsing fails. -/

/-- A civil UTC date-time at second precision, modelling chrono
`DateTime<Utc>` as used by the store (only formatting at second
precision and equality are relevant). -/
structure UtcDateTime where
  year : Nat
  month : Nat
  day : Nat
  hour : Nat
  minute : Nat
  second : Nat
deriving DecidableEq, Repr

/-- Zero-pad a numeral to width 2 (chrono `%m`, `%d`, `%H`, `%M`, `%S`). -/
def pad2 (n : Nat) : String :=
  if n < 10 then "0" ++ toString n else toString n

/-- Zero-pad a numeral to width 4 (chrono `%Y` for ordinary years). -/
def pad4 (n : Nat) : String :=
  if n < 10 then "000" ++ toString n
  else if n < 100 then "00" ++ toString n
  else if n < 1000 then "0" ++ toString n
  else toString n

/-- chrono rendering of a UTC time with format `"%Y-%m-%d %H:%M:%S"`,
as produced by `record.timestamp.format(...)` in
`database.rs::add_price_record`. -/
def format_timestamp (t : UtcDateTime) : String :=
  pad4 t.year ++ "-" ++ pad2 t.month ++ "-" ++ pad2 t.day ++ " " ++
    pad2 t.hour ++ ":" ++ pad2 t.minute ++ ":" ++ pad2 t.second

/-- chrono `DateTime::parse_from_str(s, "%Y-%m-%d %H:%M:%S")`.  This
chrono API parses into a `DateTime<FixedOffset>` and therefore
requires the format to supply a UTC offset; the format string used by
`database.rs` has no offset item (`%z`/`%:z`/`%#z`), so for every
input string the call returns `Err` (chrono `ParseError`, kind
`NotEnough`).  The embedding accordingly returns `none` for every
input. -/
def parse_from_str_ymd_hms (s : String) : Option UtcDateTime :=
  match s with
  | _ => none

/-! ## The store (src/database.rs)

The SQLite database reached through `rusqlite`.  The schema of
`run_migrations` declares `FOREIGN KEY` clauses, but SQLite only
enforces foreign keys when `PRAGMA foreign_keys = ON` has been issued
on the connection; the default is OFF and neither `database.rs` nor
`rusqlite` ever issues the pragma, so the declared foreign keys are
accepted and ignored at runtime.  `AUTOINCREMENT` columns are modelled
with explicit sequence counters.  `CURRENT_TIMESTAMP` defaults and the
`DateTime<Utc>` arguments are supplied as explicit `now` parameters. -/

/-- A row of the `releases` table. -/
structure ReleaseRow where
  id : Nat
  title : String
  artist : String
  year : Nat
  format : String
  thumb_url : String
  added_date : String
  updated_at : UtcDateTime
deriving DecidableEq, Repr

/-- A row of the `price_history` table; `timestamp` holds the TEXT
value actually bound by `add_price_record` (the chrono-formatted
string), `wants_count` is nullable (`params!` binds `Option<u32>`,
storing SQL NULL for `None`). -/
structure PriceRow where
  id : Nat
  release_id : Nat
  price : ℚ
  currency : String
  condition : String
  timestamp : String
  listing_count : Nat
  wants_count : Option Nat
deriving DecidableEq, Repr

/-- A row of the `collection_items` table (`instance_id` nullable). -/
structure CollectionItemRow where
  id : Nat
  release_id : Nat
  folder_id : Nat
  instance_id : Option Nat
  rating : Nat
  date_added : UtcDateTime
deriving DecidableEq, Repr

/-- The store state: the tables of `run_migrations` used by the
verified operations, plus the AUTOINCREMENT sequence counters. -/
structure PriceDatabase where
  releases : List ReleaseRow
  price_history : List PriceRow
  collection_items : List CollectionItemRow
  price_seq : Nat
  coll_seq : Nat
deriving DecidableEq, Repr

/-- A freshly migrated store: `run_migrations` only creates empty
tables (`CREATE TABLE IF NOT EXISTS`), inserting nothing. -/
def emptyDatabase : PriceDatabase :=
  { releases := [], price_history := [], collection_items := [],
    price_seq := 0, coll_seq := 0 }

/-- `types.rs::PriceRecord` (the argument of `add_price_record`). -/
structure PriceRecord where
  id : Option Nat
  release_id : Nat
  price : ℚ
  currency : String
  condition : String
  timestamp : UtcDateTime
  listing_count : Nat
  wants_count : Option Nat
deriving DecidableEq, Repr

/-- `database.rs::add_or_update_release` (lines 126-141): `INSERT OR
REPLACE INTO releases` keyed by the `id` PRIMARY KEY; `updated_at` is
set to `CURRENT_TIMESTAMP` (the `now` parameter). -/
def add_or_update_release (db : PriceDatabase) (release : ReleaseInfo)
    (now : UtcDateTime) : Except String PriceDatabase :=
  let row : ReleaseRow :=
    { id := release.id, title := release.title, artist := release.artist,
      year := release.year, format := release.format,
      thumb_url := release.thumb_url, added_date := release.added_date,
      updated_at := now }
  if db.releases.any (fun r => r.id == release.id) then
    .ok { db with releases :=
      db.releases.map (fun r => if r.id == release.id then row else r) }
  else
    .ok { db with releases := db.releases ++ [row] }

/-- `database.rs::add_price_record` (lines 143-158): a plain `INSERT
INTO price_history`; the bound timestamp is the chrono-formatted
string.  The declared `FOREIGN KEY (release_id) REFERENCES releases
(id)` is NOT enforced (the connection never enables the
`foreign_keys` pragma, and the SQLite default is OFF), so the insert
succeeds whether or not the referenced release exists.  No other
constraint of the table can fail for values arriving through this
function, so the result is always `ok`. -/
def add_price_record (db : PriceDatabase) (record : PriceRecord) :
    Except String PriceDatabase :=
  .ok { db with
    price_history := db.price_history ++
      [{ id := db.price_seq + 1,
         release_id := record.release_id,
         price := record.price,
         currency := record.currency,
         condition := record.condition,
         timestamp := format_timestamp record.timestamp,
         listing_count := record.listing_count,
         wants_count := record.wants_count }],
    price_seq := db.price_seq + 1 }

/-- The row selected by `ORDER BY timestamp DESC LIMIT 1`: a row whose
TEXT timestamp is maximal under the SQLite BINARY collation (byte
order; for the fixed-width formatted timestamps this is chronological
order).  SQLite does not specify which of several tied rows is
returned; the embedding keeps the first one in insertion order. -/
def maxByTimestamp (rows : List PriceRow) : Option PriceRow :=
  rows.foldl
    (fun acc r =>
      match acc with
      | none => some r
      | some b => if b.timestamp < r.timestamp then some r else some b)
    none

/-- `database.rs::get_latest_price` (lines 185-217): select the
`price_history` row for the release with the greatest timestamp and
rebuild a `PriceRecord` from it.  The stored TEXT timestamp is parsed
with `DateTime::parse_from_str(_, "%Y-%m-%d %H:%M:%S")` and on parse
failure replaced by `Utc::now()` (the `now` parameter, i.e. the time
of the read). -/
def get_latest_price (db : PriceDatabase) (release_id : Nat)
    (now : UtcDateTime) : Except String (Option PriceRecord) :=
  match maxByTimestamp (db.price_history.filter
      (fun r => r.release_id == release_id)) with
  | none => .ok none
  | some row =>
    .ok (some
      { id := some row.id,
        release_id := row.release_id,
        price := row.price,
        currency := row.currency,
        condition := row.condition,
        timestamp := (parse_from_str_ymd_hms row.timestamp).getD now,
        listing_count := row.listing_count,
        wants_count := row.wants_count })

/-- The `UNIQUE(release_id, folder_id, instance_id)` constraint of
`collection_items`, as SQLite evaluates it: two rows conflict when the
three columns are pairwise equal AND `instance_id` is non-NULL on
both; SQL NULLs compare distinct for UNIQUE, so two rows with NULL
`instance_id` never conflict. -/
def collection_unique_conflict (row : CollectionItemRow)
    (release_id folder_id : Nat) (instance_id : Option Nat) : Bool :=
  row.release_id == release_id && row.folder_id == folder_id &&
    (match row.instance_id, instance_id with
     | some a, some b => a == b
     | _, _ => false)

/-- `database.rs::add_collection_item` (lines 252-259): `INSERT OR
IGNORE INTO collection_items`; when the new row conflicts with an
existing row under the UNIQUE constraint the insert is silently
skipped, otherwise the row is added with `rating` defaulting to 0 and
`date_added = CURRENT_TIMESTAMP` (the `now` parameter). -/
def add_collection_item (db : PriceDatabase) (release_id folder_id : Nat)
    (instance_id : Option Nat) (now : UtcDateTime) :
    Except String PriceDatabase :=
  if db.collection_items.any
      (fun row => collection_unique_conflict row release_id folder_id instance_id) then
    .ok db
  else
    .ok { db with
      collection_items := db.collection_items ++
        [{ id := db.coll_seq + 1, release_id := release_id,
           folder_id := folder_id, instance_id := instance_id,
           rating := 0, date_added := now }],
      coll_seq := db.coll_seq + 1 }

/-- `database.rs::get_collection_count` (lines 270-277): `SELECT
COUNT(*) FROM collection_items`. -/
def get_collection_count (db : PriceDatabase) : Nat :=
  db.collection_items.length

/-! ## Trend analytics

`cli.rs::handle_trends` (lines 135-147) is an unimplemented stub (its
body prints two messages around a `// TODO: Implement trends analysis`
comment); only the result types `PriceTrend` and `TrendDirection`
exist in `types.rs`.  The computation is therefore modelled from the
specification. -/

/-- `types.rs::TrendDirection`. -/
inductive TrendDirection where
  | Up
  | Down
  | Stable
deriving DecidableEq, Repr

/-- The derived trend record (`types.rs::PriceTrend`, with the release
identified by its id and prices as exact rationals). -/
structure PriceTrend where
  release_id : Nat
  current_price : ℚ
  previous_price : ℚ
  price_change : ℚ
  percentage_change : ℚ
  trend : TrendDirection
deriving DecidableEq, Repr

/-- Modelled from the spec: classification `Up` if `percentChange >
0`, `Down` if `percentChange < 0`, `Stable` if exactly `0`
(`cli.rs::handle_trends` is an unimplemented stub). -/
def classifyTrend (pc : ℚ) : TrendDirection :=
  if 0 < pc then .Up else if pc < 0 then .Down else .Stable

/-- Modelled from the spec: for a release with at least two
observations (prices listed in ascending timestamp order), compare the
two most recent: `change = latest.price - previous.price`,
`percentChange = change / previous.price * 100`, excluding the release
when `previous.price == 0` (`cli.rs::handle_trends` is an
unimplemented stub). -/
def trendForRelease (release_id : Nat) (prices : List ℚ) : Option PriceTrend :=
  match prices.reverse with
  | latest :: previous :: _ =>
    if previous = 0 then none
    else
      some { release_id := release_id,
             current_price := latest,
             previous_price := previous,
             price_change := latest - previous,
             percentage_change := (latest - previous) / previous * 100,
             trend := classifyTrend ((latest - previous) / previous * 100) }
  | _ => none

/-- Ordering of the trend report: descending by `percentage_change`,
ties broken by release id ascending. -/
def trendBefore (a b : PriceTrend) : Bool :=
  decide (b.percentage_change < a.percentage_change ∨
    (b.percentage_change = a.percentage_change ∧ a.release_id ≤ b.release_id))

/-- Modelled from the spec: `computeTrends(minPercentChange,
includeDecreases)` over the stored history, given for each release its
observation prices in ascending timestamp order; keeps a release only
if `abs(percentChange) >= minPercentChange`, drops `Down` results when
`includeDecreases` is false, and sorts descending by percentage change
with id-ascending tie-break (`cli.rs::handle_trends` is an
unimplemented stub). -/
def computeTrends (minPercentChange : ℚ) (includeDecreases : Bool)
    (data : List (Nat × List ℚ)) : List PriceTrend :=
  ((data.filterMap (fun p => trendForRelease p.1 p.2)).filter
    (fun t => decide (minPercentChange ≤ |t.percentage_change|) &&
      (includeDecreases || decide (t.trend ≠ TrendDirection.Down)))).mergeSort
    trendBefore

/-! ## Raw item conversions (src/discogs.rs lines 180-228) -/

/-- `discogs.rs::impl From<DiscogsCollectionItem> for ReleaseInfo`
(lines 180-203). -/
def ReleaseInfo.ofCollectionItem (item : DiscogsCollectionItem) : ReleaseInfo :=
  let basic := item.basic_information
  let artist := ((basic.artists.head?).map (fun a => a.name)).getD "Unknown Artist"
  let format := ((basic.formats.head?).map (fun f => f.name)).getD "Unknown Format"
  { id := basic.id, title := basic.title, artist := artist,
    year := basic.year, format := format, thumb_url := basic.thumb,
    added_date := item.date_added }

/-- `discogs.rs::impl From<DiscogsWantlistItem> for ReleaseInfo`
(lines 205-228). -/
def ReleaseInfo.ofWantlistItem (item : DiscogsWantlistItem) : ReleaseInfo :=
  let basic := item.basic_information
  let artist := ((basic.artists.head?).map (fun a => a.name)).getD "Unknown Artist"
  let format := ((basic.formats.head?).map (fun f => f.name)).getD "Unknown Format"
  { id := basic.id, title := basic.title, artist := artist,
    year := basic.year, format := format, thumb_url := basic.thumb,
    added_date := item.date_added }

/-! ## Concrete sample values used by witnesses and counterexamples -/

/-- A collection page response reporting a fixed total of 3 pages. -/
def sampleCollectionResponse3 : DiscogsCollectionResponse :=
  { pagination := { page := 1, pages := 3, per_page := 100, items := 0,
                    urls := { last := none, next := none, prev := none,
                              first := none } },
    releases := [] }

/-- A wantlist page response reporting a fixed total of 3 pages. -/
def sampleWantlistResponse3 : DiscogsWantlistResponse :=
  { pagination := { page := 1, pages := 3, per_page := 100, items := 0,
                    urls := { last := none, next := none, prev := none,
                              first := none } },
    wants := [] }

/-- A fixed observation time: 2023-01-01 00:00:00 UTC. -/
def sampleWriteTime : UtcDateTime :=
  { year := 2023, month := 1, day := 1, hour := 0, minute := 0, second := 0 }

/-- A distinct fixed read time: 2024-05-05 12:34:56 UTC. -/
def sampleReadTime : UtcDateTime :=
  { year := 2024, month := 5, day := 5, hour := 12, minute := 34, second := 56 }

/-- A release with id 1 as stored by the sync path. -/
def sampleRelease1 : ReleaseInfo :=
  { id := 1, title := "Test Album", artist := "Test Artist", year := 2023,
    format := "Vinyl", thumb_url := "thumb", added_date := "2023-01-01" }

/-- A price observation for release 1 taken at `sampleWriteTime`. -/
def sampleObservation1 : PriceRecord :=
  { id := none, release_id := 1, price := 10, currency := "USD",
    condition := "Various", timestamp := sampleWriteTime,
    listing_count := 3, wants_count := some 7 }

/-- A price observation whose release id 999 exists in no store used
below. -/
def sampleObservation999 : PriceRecord :=
  { id := none, release_id := 999, price := 25, currency := "USD",
    condition := "Various", timestamp := sampleWriteTime,
    listing_count := 2, wants_count := none }

/-! ## Pagination lemmas -/

/-- Request-trace shape of the folder collection loop: starting at any
`page`, the requested pages are `page, page+1, ...` (some `k ≥ 1` of
them), the loop makes at most `U32 + 1 - page` requests, and a page is
followed by another request only when its response arrived and
reported strictly more pages than the current page number. -/
theorem by_folder_go_shape_aux
    (srv : DiscogsRequest → Except String DiscogsCollectionResponse)
    (u : String) (f : Nat) :
    ∀ B page, U32 ≤ page + B →
      ∃ k, (get_collection_by_folder_go srv u f page).1 = List.range' page k ∧
        1 ≤ k ∧ (page ≤ U32 → page + k ≤ U32 + 1) ∧
        (∀ j, j + 1 < k → ∃ r, srv (.collectionReleases u f (page + j)) = .ok r ∧
          page + j < r.pagination.pages % U32) := by
  intro B
  induction B with
  | zero =>
    intro page hpage
    refine ⟨1, ?_, le_refl 1, fun _ => by omega, fun j hj => by omega⟩
    rw [get_collection_by_folder_go]
    cases h : srv (.collectionReleases u f page) with
    | error e => simp
    | ok r =>
      have hc : r.pagination.pages % U32 ≤ page := by
        have hm : r.pagination.pages % U32 < U32 := Nat.mod_lt _ (by norm_num [U32])
        omega
      simp [hc]
  | succ b ih =>
    intro page hpage
    rw [get_collection_by_folder_go]
    cases h : srv (.collectionReleases u f page) with
    | error e => exact ⟨1, by simp, le_refl 1, fun _ => by omega, fun j hj => by omega⟩
    | ok r =>
      by_cases hc : r.pagination.pages % U32 ≤ page
      · exact ⟨1, by simp [hc], le_refl 1, fun _ => by omega, fun j hj => by omega⟩
      · have hm : r.pagination.pages % U32 < U32 := Nat.mod_lt _ (by norm_num [U32])
        obtain ⟨k', h1, h2, h3, h4⟩ := ih (page + 1) (by omega)
        refine ⟨k' + 1, ?_, by omega, fun _ => ?_, fun j hj => ?_⟩
        · simp only [hc, if_neg, if_false]
          simp only [h1]
          rw [List.range'_succ]
        · have := h3 (by omega)
          omega
        · match j with
          | 0 => exact ⟨r, by simpa using h, by omega⟩
          | jj + 1 =>
            obtain ⟨r', hsrv, hlt⟩ := h4 jj (by omega)
            exact ⟨r', by rw [show page + (jj + 1) = page + 1 + jj by omega]; exact hsrv,
                   by omega⟩

/-- When every response succeeds and reports a fixed total of `P`
pages, the folder collection loop entered at `page ≤ P` makes exactly
`P + 1 - page` requests. -/
theorem by_folder_go_fixed_aux
    (srv : DiscogsRequest → Except String DiscogsCollectionResponse)
    (u : String) (f : Nat) (P : Nat) (hPU : P < U32)
    (hfix : ∀ q, ∃ r, srv (.collectionReleases u f q) = .ok r ∧
      r.pagination.pages = P) :
    ∀ B page, P ≤ page + B → page ≤ P →
      (get_collection_by_folder_go srv u f page).1.length = P + 1 - page := by
  intro B
  induction B with
  | zero =>
    intro page hpage hle
    obtain ⟨r, hsrv, hr⟩ := hfix page
    rw [get_collection_by_folder_go, hsrv]
    have hc : r.pagination.pages % U32 ≤ page := by
      rw [hr, Nat.mod_eq_of_lt hPU]
      omega
    simp [hc]
    omega
  | succ b ih =>
    intro page hpage hle
    obtain ⟨r, hsrv, hr⟩ := hfix page
    rw [get_collection_by_folder_go, hsrv]
    have hrm : r.pagination.pages % U32 = P := by rw [hr, Nat.mod_eq_of_lt hPU]
    by_cases hc : r.pagination.pages % U32 ≤ page
    · have : page = P := by omega
      simp [hc]
      omega
    · have hlt : page < P := by omega
      have := ih (page + 1) (by omega) (by omega)
      simp only [hc, if_neg, if_false]
      simp only [List.length_cons, this]
      omega

/-- The two collection loop bodies agree at folder 0 from any page:
`get_collection` hard-codes folder `0` in its URL format string, so it
issues exactly the requests of `get_collection_by_folder` at folder
`0`. -/
theorem collection_go_eq_by_folder_go_aux
    (srv : DiscogsRequest → Except String DiscogsCollectionResponse)
    (u : String) :
    ∀ B page, U32 ≤ page + B →
      get_collection_go srv u page = get_collection_by_folder_go srv u 0 page := by
  intro B
  induction B with
  | zero =>
    intro page hpage
    rw [get_collection_go, get_collection_by_folder_go]
    cases h : srv (.collectionReleases u 0 page) with
    | error e => rfl
    | ok r =>
      have hc : r.pagination.pages % U32 ≤ page := by
        have hm : r.pagination.pages % U32 < U32 := Nat.mod_lt _ (by norm_num [U32])
        omega
      simp [hc]
  | succ b ih =>
    intro page hpage
    rw [get_collection_go, get_collection_by_folder_go]
    cases h : srv (.collectionReleases u 0 page) with
    | error e => rfl
    | ok r =>
      by_cases hc : r.pagination.pages % U32 ≤ page
      · simp [hc]
      · simp only [hc, if_neg, if_false]
        rw [ih (page + 1) (by omega)]

/-- Trace shape of the wantlist loop, as for the collection loops. -/
theorem wantlist_go_shape_aux
    (srv : DiscogsRequest → Except String DiscogsWantlistResponse) (u : String) :
    ∀ B page, U32 ≤ page + B →
      ∃ k, (get_wantlist_go srv u page).1 = List.range' page k ∧
        1 ≤ k ∧ (page ≤ U32 → page + k ≤ U32 + 1) ∧
        (∀ j, j + 1 < k → ∃ r, srv (.wants u (page + j)) = .ok r ∧
          page + j < r.pagination.pages % U32) := by
  intro B
  induction B with
  | zero =>
    intro page hpage
    refine ⟨1, ?_, le_refl 1, fun _ => by omega, fun j hj => by omega⟩
    rw [get_wantlist_go]
    cases h : srv (.wants u page) with
    | error e => simp
    | ok r =>
      have hc : r.pagination.pages % U32 ≤ page := by
        have hm : r.pagination.pages % U32 < U32 := Nat.mod_lt _ (by norm_num [U32])
        omega
      simp [hc]
  | succ b ih =>
    intro page hpage
    rw [get_wantlist_go]
    cases h : srv (.wants u page) with
    | error e => exact ⟨1, by simp, le_refl 1, fun _ => by omega, fun j hj => by omega⟩
    | ok r =>
      by_cases hc : r.pagination.pages % U32 ≤ page
      · exact ⟨1, by simp [hc], le_refl 1, fun _ => by omega, fun j hj => by omega⟩
      · have hm : r.pagination.pages % U32 < U32 := Nat.mod_lt _ (by norm_num [U32])
        obtain ⟨k', h1, h2, h3, h4⟩ := ih (page + 1) (by omega)
        refine ⟨k' + 1, ?_, by omega, fun _ => ?_, fun j hj => ?_⟩
        · simp only [hc, if_neg, if_false]
          simp only [h1]
          rw [List.range'_succ]
        · have := h3 (by omega)
          omega
        · match j with
          | 0 => exact ⟨r, by simpa using h, by omega⟩
          | jj + 1 =>
            obtain ⟨r', hsrv, hlt⟩ := h4 jj (by omega)
            exact ⟨r', by rw [show page + (jj + 1) = page + 1 + jj by omega]; exact hsrv,
                   by omega⟩

/-- Fixed-total request count for the wantlist loop. -/
theorem wantlist_go_fixed_aux
    (srv : DiscogsRequest → Except String DiscogsWantlistResponse)
    (u : String) (P : Nat) (hPU : P < U32)
    (hfix : ∀ q, ∃ r, srv (.wants u q) = .ok r ∧ r.pagination.pages = P) :
    ∀ B page, P ≤ page + B → page ≤ P →
      (get_wantlist_go srv u page).1.length = P + 1 - page := by
  intro B
  induction B with
  | zero =>
    intro page hpage hle
    obtain ⟨r, hsrv, hr⟩ := hfix page
    rw [get_wantlist_go, hsrv]
    have hc : r.pagination.pages % U32 ≤ page := by
      rw [hr, Nat.mod_eq_of_lt hPU]
      omega
    simp [hc]
    omega
  | succ b ih =>
    intro page hpage hle
    obtain ⟨r, hsrv, hr⟩ := hfix page
    rw [get_wantlist_go, hsrv]
    have hrm : r.pagination.pages % U32 = P := by rw [hr, Nat.mod_eq_of_lt hPU]
    by_cases hc : r.pagination.pages % U32 ≤ page
    · have : page = P := by omega
      simp [hc]
      omega
    · have hlt : page < P := by omega
      have := ih (page + 1) (by omega) (by omega)
      simp only [hc, if_neg, if_false]
      simp only [List.length_cons, this]
      omega

/-! ## Marketplace claims -/

/-- C3 counterexample: a marketplace-stats lookup whose stats request
fails outright (the server oracle reports a transport-level failure,
i.e. `make_request` returned `Err`) does NOT surface an error: the
source matches the failure with `Err(_) => return Ok(None)`, so the
caller receives the successful empty result, contradicting the claim
that such failures are surfaced as errors. -/
theorem get_marketplace_stats_error_swallowed_counterexample :
    get_marketplace_stats (fun _ => .error "HTTP 500 Internal Server Error")
      (fun _ => .ok { community := none }) 123 = .ok none := by
  rfl

/-- C3 amended: `get_marketplace_stats` never surfaces a failure of
the marketplace-stats request as an error; every transport, auth,
status or decode failure of that request (an `Err` from
`make_request`) is converted to the successful empty result
`Ok(None)`, indistinguishable from "no price available". -/
theorem get_marketplace_stats_request_failure_yields_ok_none
    (srvStats : DiscogsRequest → Except String DiscogsMarketplaceStats)
    (srvRelease : DiscogsRequest → Except String DiscogsReleaseInfo)
    (release_id : Nat) (e : String)
    (hfail : srvStats (.marketplaceStats release_id) = .error e) :
    get_marketplace_stats srvStats srvRelease release_id = .ok none := by
  unfold get_marketplace_stats
  rw [hfail]

/-- Witness for the C3 amended theorem at a concrete failing server. -/
theorem get_marketplace_stats_request_failure_yields_ok_none_witness :
    get_marketplace_stats (fun _ => .error "connection timed out")
      (fun _ => .ok { community := some { want := 4, have_count := 2 } }) 7 =
      .ok none :=
  get_marketplace_stats_request_failure_yields_ok_none _ _ 7
    "connection timed out" rfl

/-- C4: for every successfully decoded stats response,
`get_marketplace_stats` returns the successful empty result (`Ok
(none)`, not an error) whenever the reported number of listings for
sale is 0 — even if a lowest price is present — and likewise when no
lowest price is reported. -/
theorem get_marketplace_stats_zero_listings_is_none
    (srvStats : DiscogsRequest → Except String DiscogsMarketplaceStats)
    (srvRelease : DiscogsRequest → Except String DiscogsReleaseInfo)
    (release_id : Nat) (stats : DiscogsMarketplaceStats)
    (hok : srvStats (.marketplaceStats release_id) = .ok stats)
    (hempty : stats.num_for_sale = 0 ∨ stats.lowest_price = none) :
    get_marketplace_stats srvStats srvRelease release_id = .ok none := by
  obtain ⟨lp, nfs, bfs⟩ := stats
  unfold get_marketplace_stats
  rw [hok]
  rcases hempty with h | h
  · simp only at h
    cases lp with
    | none => rfl
    | some p => simp [h]
  · simp only at h
    rw [h]

/-- Witness for C4: zero listings with a lowest price present still
give `Ok (none)`. -/
theorem get_marketplace_stats_zero_listings_is_none_witness :
    get_marketplace_stats
      (fun _ => .ok { lowest_price := some { value := 5, currency := "USD" },
                      num_for_sale := 0, blocked_from_sale := false })
      (fun _ => .ok { community := none }) 42 = .ok none :=
  get_marketplace_stats_zero_listings_is_none _ _ 42
    { lowest_price := some { value := 5, currency := "USD" },
      num_for_sale := 0, blocked_from_sale := false }
    rfl (Or.inl rfl)

/-- C5: when the stats request finds a price (lowest price present and
at least one listing for sale) but the secondary community-wants
request fails, `get_marketplace_stats` still succeeds with that price
and a wants count of 0: `get_wants_count(...).unwrap_or(0)`. -/
theorem get_marketplace_stats_wants_failure_degrades_to_zero
    (srvStats : DiscogsRequest → Except String DiscogsMarketplaceStats)
    (srvRelease : DiscogsRequest → Except String DiscogsReleaseInfo)
    (release_id : Nat) (stats : DiscogsMarketplaceStats)
    (price : DiscogsPrice) (e : String)
    (hok : srvStats (.marketplaceStats release_id) = .ok stats)
    (hlp : stats.lowest_price = some price)
    (hsale : 0 < stats.num_for_sale)
    (hfail : srvRelease (.releaseInfo release_id) = .error e) :
    get_marketplace_stats srvStats srvRelease release_id =
      .ok (some { price := price.value, currency := price.currency,
                  condition := "Various",
                  listing_count := stats.num_for_sale,
                  wants_count := 0 }) := by
  obtain ⟨lp, nfs, bfs⟩ := stats
  simp only at hlp hsale ⊢
  subst hlp
  unfold get_marketplace_stats get_wants_count
  rw [hok, hfail]
  simp [hsale]

/-- Witness for C5 at a concrete pair of servers: price found, wants
lookup fails, result carries the price with wants count 0. -/
theorem get_marketplace_stats_wants_failure_degrades_to_zero_witness :
    get_marketplace_stats
      (fun _ => .ok { lowest_price := some { value := 12, currency := "EUR" },
                      num_for_sale := 4, blocked_from_sale := false })
      (fun _ => .error "HTTP 404") 9 =
      .ok (some { price := 12, currency := "EUR", condition := "Various",
                  listing_count := 4, wants_count := 0 }) :=
  get_marketplace_stats_wants_failure_degrades_to_zero _ _ 9
    { lowest_price := some { value := 12, currency := "EUR" },
      num_for_sale := 4, blocked_from_sale := false }
    { value := 12, currency := "EUR" } "HTTP 404" rfl rfl (by decide) rfl

/-! ## Store claims -/

/-- C2 (divergence of the code from the claim): on a freshly migrated
store whose `releases` table is empty, `add_price_record` for the
unknown release id 999 SUCCEEDS and appends an orphan `price_history`
row — the store is changed and no `IntegrityError` is raised, because
the connection never enables the SQLite `foreign_keys` pragma, so the
`FOREIGN KEY` clause declared by `run_migrations` is not enforced.
(The release itself is indeed not silently created: `releases` stays
empty.) -/
theorem add_price_record_unknown_release_succeeds :
    add_price_record emptyDatabase sampleObservation999 =
      .ok { releases := [],
            price_history :=
              [{ id := 1, release_id := 999, price := 25, currency := "USD",
                 condition := "Various", timestamp := "2023-01-01 00:00:00",
                 listing_count := 2, wants_count := none }],
            collection_items := [], price_seq := 1, coll_seq := 0 } := by
  rfl

/-- C6 counterexample: with the instance id ABSENT, two identical
`add_collection_item` calls are not idempotent: the second call
inserts a second row and `get_collection_count` grows from 1 to 2,
because the SQLite UNIQUE constraint treats the NULL `instance_id`
columns of the two rows as distinct, so `INSERT OR IGNORE` never
ignores. -/
theorem add_collection_item_absent_instance_duplicates :
    ((add_collection_item emptyDatabase 1 0 none sampleWriteTime).bind
        (fun db => add_collection_item db 1 0 none sampleWriteTime)).map
      get_collection_count = .ok 2 ∧
    (add_collection_item emptyDatabase 1 0 none sampleWriteTime).map
      get_collection_count = .ok 1 := by
  exact ⟨rfl, rfl⟩

/-- C6 amended: `add_collection_item` is idempotent whenever the
instance id is PRESENT — repeating the call with the same (release,
folder, Some instance) triple is a no-op, leaving the whole store (and
hence `get_collection_count`) unchanged; the absent-instance-id case
is excluded (see the counterexample). -/
theorem add_collection_item_some_instance_idempotent
    (db : PriceDatabase) (release_id folder_id instance_id : Nat)
    (t1 t2 : UtcDateTime) :
    (add_collection_item db release_id folder_id (some instance_id) t1).bind
      (fun db1 =>
        add_collection_item db1 release_id folder_id (some instance_id) t2) =
      add_collection_item db release_id folder_id (some instance_id) t1 := by
  unfold add_collection_item
  cases h : db.collection_items.any
      (fun row => collection_unique_conflict row release_id folder_id
        (some instance_id)) with
  | true =>
    have h' := h
    rw [List.any_eq_true] at h'
    simp [h, h', Except.bind]
  | false =>
    rw [if_neg (by simp [h])]
    show Except.bind (.ok _) _ = _
    rw [Except.bind]
    rw [if_pos]
    simp [List.any_append, collection_unique_conflict]

/-- C7 (divergence of the code from the claim): append an observation
for the known release 1 at `sampleWriteTime`, then read it back with
`get_latest_price` at the later `sampleReadTime`: the returned record
carries `sampleReadTime` (the time of the READ), not the appended
observation time.  The stored TEXT timestamp is parsed with chrono
`DateTime::parse_from_str` under a format with no UTC-offset item,
which fails for every input, and the code falls back to `Utc::now()`. -/
theorem get_latest_price_returns_read_time_not_stored_time :
    (((add_or_update_release emptyDatabase sampleRelease1 sampleWriteTime).bind
        (fun db1 => add_price_record db1 sampleObservation1)).bind
      (fun db2 => get_latest_price db2 1 sampleReadTime)) =
      .ok (some { id := some 1, release_id := 1, price := 10,
                  currency := "USD", condition := "Various",
                  timestamp := sampleReadTime,
                  listing_count := 3, wants_count := some 7 }) ∧
    sampleReadTime ≠ sampleObservation1.timestamp := by
  exact ⟨rfl, by decide⟩

/-! ## Analytics claims -/

/-- The classification function realises the sign trichotomy. -/
theorem classifyTrend_spec_aux (pc : ℚ) :
    (classifyTrend pc = TrendDirection.Up ↔ 0 < pc) ∧
    (classifyTrend pc = TrendDirection.Down ↔ pc < 0) ∧
    (classifyTrend pc = TrendDirection.Stable ↔ pc = 0) := by
  unfold classifyTrend
  split_ifs with h1 h2
  · refine ⟨?_, ?_, ?_⟩ <;> simp <;> linarith
  · refine ⟨?_, ?_, ?_⟩ <;> simp <;> linarith
  · have h0 : pc = 0 := le_antisymm (not_lt.mp h1) (not_lt.mp h2)
    refine ⟨?_, ?_, ?_⟩ <;> simp <;> linarith

/-- C8: every trend reported by `computeTrends` has a nonzero previous
price, absolute change `latest - previous`, percentage change `(latest
- previous) / previous * 100`, classification `Up`/`Down`/`Stable`
exactly matching the sign of the percentage change, and its current
and previous prices are the two most recent stored observations of a
release of the input. -/
theorem computeTrends_sound (minPercentChange : ℚ) (includeDecreases : Bool)
    (data : List (Nat × List ℚ)) (t : PriceTrend)
    (ht : t ∈ computeTrends minPercentChange includeDecreases data) :
    t.previous_price ≠ 0 ∧
    t.price_change = t.current_price - t.previous_price ∧
    t.percentage_change =
      (t.current_price - t.previous_price) / t.previous_price * 100 ∧
    (t.trend = TrendDirection.Up ↔ 0 < t.percentage_change) ∧
    (t.trend = TrendDirection.Down ↔ t.percentage_change < 0) ∧
    (t.trend = TrendDirection.Stable ↔ t.percentage_change = 0) ∧
    ∃ rid prices latest previous rest,
      (rid, prices) ∈ data ∧ prices.reverse = latest :: previous :: rest ∧
      t.release_id = rid ∧ t.current_price = latest ∧
      t.previous_price = previous := by
  unfold computeTrends at ht
  rw [List.Perm.mem_iff (List.mergeSort_perm _ _)] at ht
  rw [List.mem_filter] at ht
  obtain ⟨htm, hpred⟩ := ht
  rw [List.mem_filterMap] at htm
  obtain ⟨p, hp, hsome⟩ := htm
  unfold trendForRelease at hsome
  cases hrev : p.2.reverse with
  | nil => rw [hrev] at hsome; simp at hsome
  | cons latest tail =>
    cases tail with
    | nil => rw [hrev] at hsome; simp at hsome
    | cons previous rest =>
      rw [hrev] at hsome
      by_cases hz : previous = 0
      · simp [hz] at hsome
      · simp only [hz, if_neg, if_false, Option.some.injEq] at hsome
        subst hsome
        obtain ⟨hup, hdown, hstable⟩ :=
          classifyTrend_spec_aux ((latest - previous) / previous * 100)
        exact ⟨hz, rfl, rfl, hup, hdown, hstable,
          p.1, p.2, latest, previous, rest, by simpa using hp, hrev, rfl, rfl, rfl⟩

/-- Evaluation of `computeTrends` on the specification scenario:
release 111 priced 10 then 12 at threshold 5 excludes nothing and
reports one record with a 20 percent `Up` trend. -/
theorem computeTrends_sample_eval_aux :
    computeTrends 5 false [(111, [10, 12])] =
      [⟨111, 12, 10, 2, 20, TrendDirection.Up⟩] := by
  unfold computeTrends trendForRelease classifyTrend
  norm_num [List.filterMap, List.filter]
  simp [List.mergeSort_singleton]

/-- Witness for C8 at the concrete history of the specification
scenario: release 111 priced 10 then 12 yields the single trend record
(20 percent, `Up`), and the reported fields satisfy the formula and
classification. -/
theorem computeTrends_sound_witness :
    (⟨111, 12, 10, 2, 20, TrendDirection.Up⟩ : PriceTrend).percentage_change =
      ((⟨111, 12, 10, 2, 20, TrendDirection.Up⟩ : PriceTrend).current_price -
        (⟨111, 12, 10, 2, 20, TrendDirection.Up⟩ : PriceTrend).previous_price) /
        (⟨111, 12, 10, 2, 20, TrendDirection.Up⟩ : PriceTrend).previous_price *
        100 ∧
    ((⟨111, 12, 10, 2, 20, TrendDirection.Up⟩ : PriceTrend).trend =
        TrendDirection.Up ↔
      0 < (⟨111, 12, 10, 2, 20, TrendDirection.Up⟩ : PriceTrend).percentage_change) ∧
    (⟨111, 12, 10, 2, 20, TrendDirection.Up⟩ : PriceTrend).previous_price ≠ 0 :=
  ⟨(computeTrends_sound 5 false [(111, [10, 12])] _
      (by rw [computeTrends_sample_eval_aux]; exact List.mem_singleton.mpr rfl)).2.2.1,
   (computeTrends_sound 5 false [(111, [10, 12])] _
      (by rw [computeTrends_sample_eval_aux]; exact List.mem_singleton.mpr rfl)).2.2.2.1,
   (computeTrends_sound 5 false [(111, [10, 12])] _
      (by rw [computeTrends_sample_eval_aux]; exact List.mem_singleton.mpr rfl)).1⟩

/-! ## Conversion claims -/

/-- C9: both raw-item conversions pick the first artist name (or the
sentinel for an empty artist list) and the first format name (or the
sentinel for an empty format list) and preserve id, title, year,
thumbnail URL and date added. -/
theorem releaseInfo_conversions_first_artist_first_format
    (c : DiscogsCollectionItem) (w : DiscogsWantlistItem) :
    (ReleaseInfo.ofCollectionItem c).artist =
      ((c.basic_information.artists.map DiscogsArtist.name).headD
        "Unknown Artist") ∧
    (ReleaseInfo.ofCollectionItem c).format =
      ((c.basic_information.formats.map DiscogsFormat.name).headD
        "Unknown Format") ∧
    (ReleaseInfo.ofCollectionItem c).id = c.basic_information.id ∧
    (ReleaseInfo.ofCollectionItem c).title = c.basic_information.title ∧
    (ReleaseInfo.ofCollectionItem c).year = c.basic_information.year ∧
    (ReleaseInfo.ofCollectionItem c).thumb_url = c.basic_information.thumb ∧
    (ReleaseInfo.ofCollectionItem c).added_date = c.date_added ∧
    (ReleaseInfo.ofWantlistItem w).artist =
      ((w.basic_information.artists.map DiscogsArtist.name).headD
        "Unknown Artist") ∧
    (ReleaseInfo.ofWantlistItem w).format =
      ((w.basic_information.formats.map DiscogsFormat.name).headD
        "Unknown Format") ∧
    (ReleaseInfo.ofWantlistItem w).id = w.basic_information.id ∧
    (ReleaseInfo.ofWantlistItem w).title = w.basic_information.title ∧
    (ReleaseInfo.ofWantlistItem w).year = w.basic_information.year ∧
    (ReleaseInfo.ofWantlistItem w).thumb_url = w.basic_information.thumb ∧
    (ReleaseInfo.ofWantlistItem w).added_date = w.date_added := by
  refine ⟨?_, ?_, rfl, rfl, rfl, rfl, rfl, ?_, ?_, rfl, rfl, rfl, rfl, rfl⟩
  · cases hc : c.basic_information.artists with
    | nil => simp [ReleaseInfo.ofCollectionItem, hc]
    | cons a as => simp [ReleaseInfo.ofCollectionItem, hc]
  · cases hc : c.basic_information.formats with
    | nil => simp [ReleaseInfo.ofCollectionItem, hc]
    | cons f fs => simp [ReleaseInfo.ofCollectionItem, hc]
  · cases hw : w.basic_information.artists with
    | nil => simp [ReleaseInfo.ofWantlistItem, hw]
    | cons a as => simp [ReleaseInfo.ofWantlistItem, hw]
  · cases hw : w.basic_information.formats with
    | nil => simp [ReleaseInfo.ofWantlistItem, hw]
    | cons f fs => simp [ReleaseInfo.ofWantlistItem, hw]

/-! ## Pagination claims -/

/-- C10: the no-argument default-folder fetch and the by-folder fetch
at folder id 0 are equivalent: for every server behaviour they issue
the same page requests and return the same result (`get_collection`
hard-codes folder `0` in its URL where `get_collection_by_folder`
interpolates its argument; the loops are otherwise identical). -/
theorem get_collection_eq_get_collection_by_folder_zero
    (srv : DiscogsRequest → Except String DiscogsCollectionResponse)
    (u : String) :
    get_collection srv u = get_collection_by_folder srv u 0 :=
  collection_go_eq_by_folder_go_aux srv u U32 1 (by omega)

/-- C1: every paginated fetch (`get_collection`,
`get_collection_by_folder`, `get_wantlist`) requests pages
sequentially in ascending order starting at page 1, issues at most
`U32` page requests for any server behaviour whatsoever (never looping
indefinitely), continues past a page only when the response for that
page reported a total page count strictly greater than the page
number (so it stops as soon as `page >= reported total`), and, when
every response succeeds reporting a fixed total of `P >= 1` pages,
issues exactly `P` page requests. -/
theorem paginated_fetches_sequential_bounded_exact
    (csrv csrv2 : DiscogsRequest → Except String DiscogsCollectionResponse)
    (wsrv wsrv2 : DiscogsRequest → Except String DiscogsWantlistResponse)
    (u u2 : String) (folderId folderId2 : Nat) (P : Nat)
    (hP : 1 ≤ P) (hPU : P < U32)
    (hcfix : ∀ f q, ∃ r, csrv (.collectionReleases u f q) = .ok r ∧
      r.pagination.pages = P)
    (hwfix : ∀ q, ∃ r, wsrv (.wants u q) = .ok r ∧ r.pagination.pages = P) :
    ((get_collection csrv2 u2).1 =
        List.range' 1 (get_collection csrv2 u2).1.length ∧
      (get_collection csrv2 u2).1.length ≤ U32 ∧
      (∀ j, j + 1 < (get_collection csrv2 u2).1.length →
        ∃ r, csrv2 (.collectionReleases u2 0 (1 + j)) = .ok r ∧
          1 + j < r.pagination.pages % U32)) ∧
    ((get_collection_by_folder csrv2 u2 folderId2).1 =
        List.range' 1 (get_collection_by_folder csrv2 u2 folderId2).1.length ∧
      (get_collection_by_folder csrv2 u2 folderId2).1.length ≤ U32 ∧
      (∀ j, j + 1 < (get_collection_by_folder csrv2 u2 folderId2).1.length →
        ∃ r, csrv2 (.collectionReleases u2 folderId2 (1 + j)) = .ok r ∧
          1 + j < r.pagination.pages % U32)) ∧
    ((get_wantlist wsrv2 u2).1 =
        List.range' 1 (get_wantlist wsrv2 u2).1.length ∧
      (get_wantlist wsrv2 u2).1.length ≤ U32 ∧
      (∀ j, j + 1 < (get_wantlist wsrv2 u2).1.length →
        ∃ r, wsrv2 (.wants u2 (1 + j)) = .ok r ∧
          1 + j < r.pagination.pages % U32)) ∧
    (get_collection csrv u).1.length = P ∧
    (get_collection_by_folder csrv u folderId).1.length = P ∧
    (get_wantlist wsrv u).1.length = P := by
  have hone : (1 : Nat) ≤ U32 := by norm_num [U32]
  have hcoll2 :
      get_collection csrv2 u2 = get_collection_by_folder csrv2 u2 0 :=
    collection_go_eq_by_folder_go_aux csrv2 u2 U32 1 (by omega)
  have hcoll :
      get_collection csrv u = get_collection_by_folder csrv u 0 :=
    collection_go_eq_by_folder_go_aux csrv u U32 1 (by omega)
  obtain ⟨k0, hk0, hk0one, hk0bound, hk0cont⟩ :=
    by_folder_go_shape_aux csrv2 u2 0 U32 1 (by omega)
  obtain ⟨kf, hkf, hkfone, hkfbound, hkfcont⟩ :=
    by_folder_go_shape_aux csrv2 u2 folderId2 U32 1 (by omega)
  obtain ⟨kw, hkw, hkwone, hkwbound, hkwcont⟩ :=
    wantlist_go_shape_aux wsrv2 u2 U32 1 (by omega)
  have hlen0 : (get_collection_by_folder csrv2 u2 0).1.length = k0 := by
    unfold get_collection_by_folder
    rw [hk0, List.length_range']
  have hlenf :
      (get_collection_by_folder csrv2 u2 folderId2).1.length = kf := by
    unfold get_collection_by_folder
    rw [hkf, List.length_range']
  have hlenw : (get_wantlist wsrv2 u2).1.length = kw := by
    unfold get_wantlist
    rw [hkw, List.length_range']
  refine ⟨⟨?_, ?_, ?_⟩, ⟨?_, ?_, ?_⟩, ⟨?_, ?_, ?_⟩, ?_, ?_, ?_⟩
  · rw [hcoll2]
    unfold get_collection_by_folder
    rw [hk0, List.length_range']
  · rw [hcoll2, hlen0]
    have := hk0bound hone
    omega
  · intro j hj
    rw [hcoll2, hlen0] at hj
    exact hk0cont j hj
  · unfold get_collection_by_folder
    rw [hkf, List.length_range']
  · rw [hlenf]
    have := hkfbound hone
    omega
  · intro j hj
    rw [hlenf] at hj
    exact hkfcont j hj
  · unfold get_wantlist
    rw [hkw, List.length_range']
  · rw [hlenw]
    have := hkwbound hone
    omega
  · intro j hj
    rw [hlenw] at hj
    exact hkwcont j hj
  · rw [hcoll]
    unfold get_collection_by_folder
    have := by_folder_go_fixed_aux csrv u 0 P hPU (hcfix 0) P 1 (by omega) hP
    omega
  · unfold get_collection_by_folder
    have := by_folder_go_fixed_aux csrv u folderId P hPU (hcfix folderId) P 1
      (by omega) hP
    omega
  · unfold get_wantlist
    have := wantlist_go_fixed_aux wsrv u P hPU hwfix P 1 (by omega) hP
    omega

/-- Witness for C1 at concrete servers that always succeed and report
a fixed total of 3 pages: each fetch issues exactly 3 page requests. -/
theorem paginated_fetches_sequential_bounded_exact_witness :
    (get_collection (fun _ => .ok sampleCollectionResponse3) "user").1.length
      = 3 ∧
    (get_collection_by_folder (fun _ => .ok sampleCollectionResponse3)
        "user" 5).1.length = 3 ∧
    (get_wantlist (fun _ => .ok sampleWantlistResponse3) "user").1.length
      = 3 := by
  have h := paginated_fetches_sequential_bounded_exact
    (fun _ => .ok sampleCollectionResponse3)
    (fun _ => .ok sampleCollectionResponse3)
    (fun _ => .ok sampleWantlistResponse3)
    (fun _ => .ok sampleWantlistResponse3)
    "user" "user" 5 5 3 (by norm_num) (by norm_num [U32])
    (fun f q => ⟨sampleCollectionResponse3, rfl, rfl⟩)
    (fun q => ⟨sampleWantlistResponse3, rfl, rfl⟩)
  exact ⟨h.2.2.2.1, h.2.2.2.2.1, h.2.2.2.2.2⟩

end DiscogsTracker
